import Mathlib

/-!
# Verification of the will-it-jello deformation engine

A shallow embedding of the wobble/deformation core of `src/main.js`
(the second document in that file, which is the variant with the embedded
object): the four damped-spring oscillators, the click impact mapper, the
body vertex-shader deformation formula, the CPU-side embedded-object vertex
deformation, the per-frame update with its quiescence gate, and the
image-upload lifecycle.  All scalars are modelled as rationals.
-/

namespace WillItJello

/-- A 3-component vector, as used for mesh vertex positions. -/
structure V3 where
  x : ℚ
  y : ℚ
  z : ℚ
deriving DecidableEq, Repr

/-- One damped spring oscillator: `{ position, velocity, stiffness }`
(`wobbleState.tiltX` etc. in `src/main.js`). -/
structure Spring where
  position : ℚ
  velocity : ℚ
  stiffness : ℚ
deriving DecidableEq, Repr

/-- `const dampingFactor = 0.97` in `src/main.js`. -/
def dampingFactor : ℚ := 97 / 100

/-- `updateSpring(spring, deltaTime)` from `src/main.js`:
`velocity += -position * stiffness * deltaTime`, then
`velocity *= dampingFactor`, then `position += velocity * deltaTime`. -/
def updateSpring (s : Spring) (deltaTime : ℚ) : Spring :=
  let v1 := s.velocity + -s.position * s.stiffness * deltaTime
  let v2 := v1 * dampingFactor
  { position := s.position + v2 * deltaTime
    velocity := v2
    stiffness := s.stiffness }

/-- An impulse adds directly to the spring's velocity
(`wobbleState.….velocity += …` in the click handler). -/
def applyImpulse (s : Spring) (dv : ℚ) : Spring :=
  { s with velocity := s.velocity + dv }

/-- The four named oscillators of `wobbleState` in `src/main.js`. -/
structure WobbleState where
  tiltX : Spring
  tiltZ : Spring
  squash : Spring
  twist : Spring
deriving DecidableEq, Repr

/-- The initial `wobbleState`: all positions and velocities 0, with the
stiffness constants 25, 25, 45, 15 from `src/main.js`. -/
def initialWobble : WobbleState :=
  { tiltX := { position := 0, velocity := 0, stiffness := 25 }
    tiltZ := { position := 0, velocity := 0, stiffness := 25 }
    squash := { position := 0, velocity := 0, stiffness := 45 }
    twist := { position := 0, velocity := 0, stiffness := 15 } }

/-- Names of the four oscillation modes. -/
inductive Mode where
  | tiltX | tiltZ | squash | twist
deriving DecidableEq, Repr

/-- Read the named oscillator out of the wobble state. -/
def getMode (w : WobbleState) : Mode → Spring
  | .tiltX => w.tiltX
  | .tiltZ => w.tiltZ
  | .squash => w.squash
  | .twist => w.twist

/-- Replace the named oscillator in the wobble state. -/
def setMode (w : WobbleState) (m : Mode) (s : Spring) : WobbleState :=
  match m with
  | .tiltX => { w with tiltX := s }
  | .tiltZ => { w with tiltZ := s }
  | .squash => { w with squash := s }
  | .twist => { w with twist := s }

/-- `updateSpring(wobbleState.m, deltaTime)`: the JS function mutates the
one spring object passed to it; here that is modelled as replacing the
named component of the state. -/
def updateSpringOn (w : WobbleState) (m : Mode) (deltaTime : ℚ) : WobbleState :=
  setMode w m (updateSpring (getMode w m) deltaTime)

/-- The four `updateSpring` calls at the top of `animate()`, in source
order: tiltX, tiltZ, squash, twist. -/
def advanceWobble (w : WobbleState) (deltaTime : ℚ) : WobbleState :=
  updateSpringOn
    (updateSpringOn
      (updateSpringOn
        (updateSpringOn w .tiltX deltaTime) .tiltZ deltaTime) .squash deltaTime)
    .twist deltaTime

/-! ## Deformation fields -/

/-- The body vertex shader of `jelloMaterial` (`src/main.js`):
`heightFactor = ((pos.y + 1)/2)^2`;
`pos.x += wobbleTilt.x * heightFactor * 0.5`;
`pos.z += wobbleTilt.y * heightFactor * 0.5`;
`squashScale = 1 + wobbleSquash * heightFactor * 0.15`;
`pos.x *= squashScale; pos.z *= squashScale`. -/
def bodyShaderDeform (wobbleTilt : ℚ × ℚ) (wobbleSquash : ℚ) (pos : V3) : V3 :=
  let heightFactor := (pos.y + 1) / 2
  let hf2 := heightFactor * heightFactor
  let x1 := pos.x + wobbleTilt.1 * hf2 * (1 / 2)
  let z1 := pos.z + wobbleTilt.2 * hf2 * (1 / 2)
  let squashScale := 1 + wobbleSquash * hf2 * (15 / 100)
  { x := x1 * squashScale, y := pos.y, z := z1 * squashScale }

/-- `objectOriginalPos = { x: 0, y: 0.5, z: 0.15 }` in `src/main.js`. -/
def objectOriginalPos : V3 := { x := 0, y := 1 / 2, z := 15 / 100 }

/-- The CPU-side per-vertex deformation of the embedded object's primary
mesh (the loop in `animate()`):
`worldY = orig.y + objectOriginalPos.y`;
`heightFactorSquared = ((worldY + 1)/2)^2`;
`x = orig.x + tiltX.position * hf2 * 0.3`;
`z = orig.z + tiltZ.position * hf2 * 0.3`;
`squashScale = 1 + squash.position * hf2 * 0.12`; `x *= s; z *= s`;
`y += sin(time*2 + orig.x*3) * squash.position * 0.02`, the sine value
being passed in here as the parameter `sinv`. -/
def cpuVertexDeform (tx tz sq anchorY sinv : ℚ) (orig : V3) : V3 :=
  let worldY := orig.y + anchorY
  let heightFactor := (worldY + 1) / 2
  let hf2 := heightFactor * heightFactor
  let x := orig.x + tx * hf2 * (3 / 10)
  let z := orig.z + tz * hf2 * (3 / 10)
  let squashScale := 1 + sq * hf2 * (12 / 100)
  let wave := sinv * sq * (2 / 100)
  { x := x * squashScale, y := orig.y + wave, z := z * squashScale }

/-- The displacement (deformed minus rest) the body shader assigns to a
point at body-local height `y`. -/
def shaderDisp (tx tz sq : ℚ) (pos : V3) : V3 :=
  let d := bodyShaderDeform (tx, tz) sq pos
  { x := d.x - pos.x, y := d.y - pos.y, z := d.z - pos.z }

/-- The displacement the CPU vertex loop assigns to a cached rest vertex. -/
def cpuDisp (tx tz sq anchorY sinv : ℚ) (orig : V3) : V3 :=
  let d := cpuVertexDeform tx tz sq anchorY sinv orig
  { x := d.x - orig.x, y := d.y - orig.y, z := d.z - orig.z }

/-- The common shape of both deformation implementations, abstracted over
the tilt coefficient `kT` and squash coefficient `kS`: height factor
`((heightY + 1)/2)^2` computed from the body-frame height `heightY`,
horizontal offset `tilt * hf2 * kT`, horizontal scale `1 + squash * hf2 * kS`. -/
def deformField (kT kS tx tz sq heightY : ℚ) (p : V3) : V3 :=
  let hf2 := ((heightY + 1) / 2) * ((heightY + 1) / 2)
  let squashScale := 1 + sq * hf2 * kS
  { x := (p.x + tx * hf2 * kT) * squashScale
    y := p.y
    z := (p.z + tz * hf2 * kT) * squashScale }

/-! ## Per-frame embedded-object update -/

/-- The quiescence check in `animate()`:
`isWobbling = |tiltX.position| > 0.01 || |tiltZ.position| > 0.01 ||
|squash.position| > 0.01` (twist is not consulted). -/
def isWobbling (w : WobbleState) : Bool :=
  (1 / 100 < |w.tiltX.position|) || (1 / 100 < |w.tiltZ.position|) ||
    (1 / 100 < |w.squash.position|)

/-- The per-frame vertex update of the embedded object's primary mesh:
when `isWobbling`, every cached original vertex is re-deformed and written
into the live buffer; otherwise the loop is skipped and the live buffer
(`current`) keeps its previous contents. -/
def updateEmbeddedVertices (w : WobbleState) (anchorY sinv : ℚ)
    (origs current : List V3) : List V3 :=
  if isWobbling w then
    origs.map (cpuVertexDeform w.tiltX.position w.tiltZ.position
      w.squash.position anchorY sinv)
  else current

/-! ## Impact mapper -/

/-- `onJelloClick` from `src/main.js`, modelled on the result of the ray
cast: `hit` is the intersection point in the jello mesh's local frame when
the ray hits the body (`intersects.length > 0`), `none` otherwise; `rand`
is the value of `Math.random()`.  On a hit:
`tiltX.velocity += (localPoint.z / 1.5) * 5.0`;
`tiltZ.velocity += -(localPoint.x / 1.5) * 5.0`;
`squash.velocity += -8.0`;
`twist.velocity += (rand - 0.5) * 4.0`.  On a miss nothing happens. -/
def onJelloClick (hit : Option V3) (rand : ℚ) (w : WobbleState) : WobbleState :=
  match hit with
  | none => w
  | some localPoint =>
      { w with
        tiltX := applyImpulse w.tiltX ((localPoint.z / (3 / 2)) * 5)
        tiltZ := applyImpulse w.tiltZ (-(localPoint.x / (3 / 2)) * 5)
        squash := applyImpulse w.squash (-8)
        twist := applyImpulse w.twist ((rand - 1 / 2) * 4) }

/-! ## Upload lifecycle -/

/-- How one run of the `imageUpload` change handler can end, from the
core's point of view: background removal rejects (caught by the handler's
`catch`), the texture load never delivers (its callback is simply not
invoked — `textureLoader.load` is given no error callback), or the texture
decodes and the install callback runs with texture `t`. -/
inductive UploadOutcome where
  | bgRemovalFails
  | textureFails
  | success (t : ℕ)
deriving DecidableEq, Repr

/-- One run of the `imageUpload` change handler over the `jellyObject`
reference.  Faithful to the source order: the previously installed object
(if any) is removed from its parent, disposed, and the reference nulled
out *before* `removeBackground` is awaited; only a successful install
callback assigns a new object. -/
def handleUpload (_installed : Option ℕ) (o : UploadOutcome) : Option ℕ :=
  let afterTeardown : Option ℕ := none
  match o with
  | .success t => some t
  | .bgRemovalFails => afterTeardown
  | .textureFails => afterTeardown

/-- The install portion of the `textureLoader.load` callback, acting on
the list of embedded plane meshes currently parented under `jelloMesh`:
the callback filters out every plane-mesh child other than the newly
created object (which is not yet a child), then adds the new object.
There is no load-generation check anywhere in the callback. -/
def installCallback (children : List ℕ) (t : ℕ) : List ℕ :=
  children.filter (fun c => c = t) ++ [t]

/-- Run the install callbacks of several overlapping loads in the order
their textures finish decoding. -/
def runCallbacks (children : List ℕ) (cbs : List ℕ) : List ℕ :=
  cbs.foldl installCallback children

/-! ## The vertex write loop with out-of-bounds semantics -/

/-- The body of the deformation loop
`for (let i = 0; i < positions.count; i++)` with JavaScript semantics for
the cache lookup: when `i` is outside `originals`, `originals[i]` is
`undefined` and the subsequent `orig.y` access throws (modelled as
`none`); otherwise vertex `i` is deformed and written.  `count` is the
live buffer's `positions.count`. -/
def writeLoop (f : V3 → V3) (origs : List V3) : ℕ → Option (List V3)
  | 0 => some []
  | n + 1 =>
      match writeLoop f origs n, origs.get? n with
      | some acc, some o => some (acc ++ [f o])
      | _, _ => none

/-! ## Frame outputs -/

/-- A bubble's cached rest data (`bubblePositions[i]`). -/
structure Bubble where
  x : ℚ
  y : ℚ
  z : ℚ
  scale : ℚ
deriving DecidableEq, Repr

/-- The translation-and-scale written into bubble `i`'s instance matrix in
`animate()` (same height-factor formula and 0.5 / 0.15 coefficients as the
body shader). -/
def bubbleInstance (w : WobbleState) (b : Bubble) : V3 × ℚ :=
  let heightFactor := (b.y + 1) / 2
  let hf2 := heightFactor * heightFactor
  let wobbledX := b.x + w.tiltX.position * hf2 * (1 / 2)
  let wobbledZ := b.z + w.tiltZ.position * hf2 * (1 / 2)
  let squashScale := 1 + w.squash.position * hf2 * (15 / 100)
  ({ x := wobbledX * squashScale, y := b.y, z := wobbledZ * squashScale }, b.scale)

/-- The rigid position written into `jellyObject.position` each frame
(anchor `objectOriginalPos` pushed through the 0.5 / 0.15 field at the
anchor's own height). -/
def objectRigidPos (w : WobbleState) : V3 :=
  let heightFactor := (objectOriginalPos.y + 1) / 2
  let hf2 := heightFactor * heightFactor
  let wobbledX := objectOriginalPos.x + w.tiltX.position * hf2 * (1 / 2)
  let wobbledZ := objectOriginalPos.z + w.tiltZ.position * hf2 * (1 / 2)
  let squashScale := 1 + w.squash.position * hf2 * (15 / 100)
  { x := wobbledX * squashScale, y := objectOriginalPos.y, z := wobbledZ * squashScale }

/-- `jellyObject.rotation.x = tiltZ.position * 0.3` and
`jellyObject.rotation.z = -tiltX.position * 0.3`. -/
def objectRotation (w : WobbleState) : ℚ × ℚ :=
  (w.tiltZ.position * (3 / 10), -w.tiltX.position * (3 / 10))

/-- Everything `animate()` writes to the renderer in one frame: the two
shader uniforms, the bubble instance matrices, the embedded object's rigid
position and rotation, the quiescence flag, and the embedded object's
vertex buffer after the gated update. -/
structure FrameOutputs where
  uniformTilt : ℚ × ℚ
  uniformSquash : ℚ
  bubbleMats : List (V3 × ℚ)
  objPos : V3
  objRot : ℚ × ℚ
  wobbling : Bool
  objVertices : List V3
deriving DecidableEq, Repr

/-- The rendered outputs of one frame, computed from the post-advance
wobble state exactly as `animate()` does. -/
def frameOutputs (w : WobbleState) (bubbles : List Bubble) (sinv : ℚ)
    (origs current : List V3) : FrameOutputs :=
  { uniformTilt := (w.tiltX.position, w.tiltZ.position)
    uniformSquash := w.squash.position
    bubbleMats := bubbles.map (bubbleInstance w)
    objPos := objectRigidPos w
    objRot := objectRotation w
    wobbling := isWobbling w
    objVertices := updateEmbeddedVertices w objectOriginalPos.y sinv origs current }

/-- One full frame: advance all four springs by the (clamped) `deltaTime`,
then produce the rendered outputs from the post-advance state. -/
def frameStep (w : WobbleState) (deltaTime : ℚ) (bubbles : List Bubble)
    (sinv : ℚ) (origs current : List V3) : WobbleState × FrameOutputs :=
  let w2 := advanceWobble w deltaTime
  (w2, frameOutputs w2 bubbles sinv origs current)

/-! ## Auxiliary definitions for the analysis -/

/-- One integration step at the fixed small time step 1/60 s. -/
def stepSpring (s : Spring) : Spring := updateSpring s (1 / 60)

/-- A quadratic energy form on a spring's `(position, velocity)` pair,
used as a Lyapunov function for the damped integration step. -/
def Eform (a b c : ℚ) (s : Spring) : ℚ :=
  a * s.position ^ 2 + b * s.position * s.velocity + c * s.velocity ^ 2

/-- A wobble state whose tiltX oscillator has been displaced to 1 while
everything else is at rest (a state reached mid-wobble). -/
def wobbleOne : WobbleState :=
  { initialWobble with tiltX := { position := 1, velocity := 0, stiffness := 25 } }

/-- A wobble state equal to `initialWobble` except for the twist
oscillator's position and velocity. -/
def wobbleTwisted : WobbleState :=
  { initialWobble with twist := { position := 5, velocity := 3, stiffness := 15 } }

/-! ## Theorems -/

/-- Claim C3: one integration step computes, in this order,
`velocity' = (velocity + (-position * stiffness * deltaTime)) * dampingFactor`
with `dampingFactor = 0.97` shared by all oscillators, then
`position' = position + velocity' * deltaTime`, and it changes only the
oscillator it is applied to, leaving the other three unchanged. -/
theorem spring_integration_step (w : WobbleState) (m : Mode) (dt : ℚ) :
    dampingFactor = 97 / 100 ∧
    (getMode (updateSpringOn w m dt) m).velocity
      = ((getMode w m).velocity + -(getMode w m).position * (getMode w m).stiffness * dt)
          * dampingFactor ∧
    (getMode (updateSpringOn w m dt) m).position
      = (getMode w m).position
        + ((getMode w m).velocity + -(getMode w m).position * (getMode w m).stiffness * dt)
            * dampingFactor * dt ∧
    ∀ m' : Mode, m' ≠ m → getMode (updateSpringOn w m dt) m' = getMode w m' := by
  refine ⟨rfl, ?_, ?_, ?_⟩
  · cases m <;> rfl
  · cases m <;> rfl
  · intro m' hne
    cases m <;> cases m' <;> first | exact absurd rfl hne | rfl

/-- Witness for claim C3 at a concrete state, mode and off-mode. -/
theorem spring_integration_step_witness :
    Mode.tiltZ ≠ Mode.tiltX ∧
    getMode (updateSpringOn initialWobble .tiltX (1 / 60)) .tiltZ
      = getMode initialWobble .tiltZ :=
  ⟨by decide,
    (spring_integration_step initialWobble .tiltX (1 / 60)).2.2.2 .tiltZ (by decide)⟩

/-- Claim C5: applying impulses i1 then i2 with no integration in between
gives exactly the same oscillator state as the single impulse i1 + i2, and
hence the same trajectory under any further integration; impulses add to
velocity and velocity is never reset. -/
theorem impulse_superposition (s : Spring) (i1 i2 : ℚ) :
    applyImpulse (applyImpulse s i1) i2 = applyImpulse s (i1 + i2) ∧
    ∀ (n : ℕ) (dt : ℚ),
      (fun t => updateSpring t dt)^[n] (applyImpulse (applyImpulse s i1) i2)
        = (fun t => updateSpring t dt)^[n] (applyImpulse s (i1 + i2)) := by
  have h : applyImpulse (applyImpulse s i1) i2 = applyImpulse s (i1 + i2) := by
    simp [applyImpulse, add_assoc]
  exact ⟨h, fun n dt => by rw [h]⟩

/-- Claim C6: on a ray hit at local point `p`, the click handler adds
`(p.z / 1.5) * 5` to tiltX's velocity, `-(p.x / 1.5) * 5` to tiltZ's
velocity, and the fixed `-8` to squash's velocity regardless of hit
location, touching no positions; on a miss the whole wobble state is left
unchanged. -/
theorem impact_mapping (w : WobbleState) (p : V3) (rand : ℚ) :
    (onJelloClick (some p) rand w).tiltX.velocity
      = w.tiltX.velocity + (p.z / (3 / 2)) * 5 ∧
    (onJelloClick (some p) rand w).tiltZ.velocity
      = w.tiltZ.velocity + -(p.x / (3 / 2)) * 5 ∧
    (onJelloClick (some p) rand w).squash.velocity = w.squash.velocity + -8 ∧
    (onJelloClick (some p) rand w).tiltX.position = w.tiltX.position ∧
    (onJelloClick (some p) rand w).tiltZ.position = w.tiltZ.position ∧
    (onJelloClick (some p) rand w).squash.position = w.squash.position ∧
    (onJelloClick (some p) rand w).twist.position = w.twist.position ∧
    onJelloClick none rand w = w := by
  exact ⟨rfl, rfl, rfl, rfl, rfl, rfl, rfl, rfl⟩

/-- Claim C1 is false as stated: at tilt (1, 0), squash 0, the CPU vertex
loop displaces a vertex whose body-frame height is 1 by 0.3 in x, while
the body shader displaces the same point by 0.5 — the two implementations
use different tilt (and squash) coefficients. -/
theorem registration_counterexample :
    cpuDisp 1 0 0 (1 / 2) 0 { x := 0, y := 1 / 2, z := 0 }
      ≠ shaderDisp 1 0 0 { x := 0, y := 1, z := 0 } := by
  intro h
  have hx := congrArg V3.x h
  simp only [cpuDisp, shaderDisp, cpuVertexDeform, bodyShaderDeform] at hx
  norm_num at hx

/-- Claim C1 amended: both implementations instantiate the same
parametric field (identical height-factor formula `((y + 1)/2)^2` over the
body-frame height, identical displacement/scale shape), but with different
coefficients: the shader uses tilt 0.5 and squash 0.15 while the CPU
vertex loop uses tilt 0.3 and squash 0.12 (plus its extra sine ripple on
y), so the displacements disagree whenever tilt or squash is active at
nonzero height factor. -/
theorem registration_refinement_amended (tx tz sq anchorY sinv : ℚ) (p : V3) :
    bodyShaderDeform (tx, tz) sq p = deformField (1 / 2) (15 / 100) tx tz sq p.y p ∧
    cpuVertexDeform tx tz sq anchorY sinv p
      = { deformField (3 / 10) (12 / 100) tx tz sq (p.y + anchorY) p with
            y := p.y + sinv * sq * (2 / 100) } ∧
    ((3 : ℚ) / 10, (12 : ℚ) / 100) ≠ ((1 : ℚ) / 2, (15 : ℚ) / 100) := by
  refine ⟨rfl, rfl, fun h => ?_⟩
  have := congrArg Prod.fst h
  norm_num at this

/-- Claim C7 is false as stated: the upload handler tears the installed
object down and nulls the reference before the new load starts, so a
failure during loading leaves no object installed rather than the
previously installed one. -/
theorem rollback_counterexample : handleUpload (some 7) .bgRemovalFails ≠ some 7 := by
  decide

/-- Claim C7 amended: on any failed replacement the previously installed
object has already been fully torn down before the load began, so the
lifecycle ends in the empty state (no embedded object), never in the prior
installed state. -/
theorem rollback_amended (st : Option ℕ) :
    handleUpload st .bgRemovalFails = none ∧ handleUpload st .textureFails = none :=
  ⟨rfl, rfl⟩

/-- Claim C8 is false as stated: with load A (object 0) and load B
(object 1) overlapping, B's callback installing first and A's stale
callback arriving later, the scene ends up showing A's object, not B's —
there is no load-generation counter and the stale callback is installed. -/
theorem stale_load_counterexample : runCallbacks [] [1, 0] ≠ [1] := by
  decide

/-- Claim C8 amended: install callbacks run unconditionally in arrival
order and each one removes every other embedded plane mesh before adding
its own, so the last callback to arrive wins: a stale superseded load that
resolves last replaces the newer object (exactly one object remains). -/
theorem stale_load_amended (a b : ℕ) (h : a ≠ b) :
    runCallbacks [] [b, a] = [a] := by
  simp [runCallbacks, installCallback, List.filter_cons, Ne.symm h]

/-- Witness for amended claim C8 at the concrete overlapping loads 0, 1. -/
theorem stale_load_amended_witness :
    (0 : ℕ) ≠ 1 ∧ runCallbacks [] [1, 0] = [0] :=
  ⟨by decide, stale_load_amended 0 1 (by decide)⟩

/-- Claim C2 is false as stated: after a wobbling frame has deformed the
embedded mesh, a frame whose four oscillator positions are all exactly 0
skips the vertex loop and leaves the stale deformed vertices in place, so
the update does not restore the cached original vertices and skipping is
not equivalent to always recomputing. -/
theorem rest_idempotence_counterexample :
    updateEmbeddedVertices initialWobble (1 / 2) 0 [{ x := 0, y := 1 / 2, z := 0 }]
        (updateEmbeddedVertices wobbleOne (1 / 2) 0 [{ x := 0, y := 1 / 2, z := 0 }]
          [{ x := 0, y := 1 / 2, z := 0 }])
      ≠ [{ x := 0, y := 1 / 2, z := 0 }] := by
  intro h
  have h1 : isWobbling wobbleOne = true := by
    norm_num [isWobbling, wobbleOne, initialWobble]
  have h0 : isWobbling initialWobble = false := by
    norm_num [isWobbling, initialWobble]
  simp only [updateEmbeddedVertices, h0, h1, if_true, if_false, Bool.false_eq_true,
    ite_false, ite_true, List.map_cons, List.map_nil, List.cons.injEq, and_true] at h
  have hx := congrArg V3.x h
  simp only [wobbleOne, initialWobble, cpuVertexDeform] at hx
  norm_num at hx

/-- Claim C2 amended: whenever all four oscillator positions are exactly
0 the per-frame update skips the vertex loop and returns the live buffer
unchanged (whatever it currently holds), while recomputing the deformation
field at the all-zero state would be the identity on the cached original
vertices; the skip therefore changes the final geometry versus always
recomputing exactly when the live buffer still holds an earlier frame's
deformation. -/
theorem rest_idempotence_amended (w : WobbleState)
    (hx : w.tiltX.position = 0) (hz : w.tiltZ.position = 0)
    (hs : w.squash.position = 0) (_ht : w.twist.position = 0)
    (anchorY sinv : ℚ) (origs current : List V3) :
    updateEmbeddedVertices w anchorY sinv origs current = current ∧
    origs.map (cpuVertexDeform w.tiltX.position w.tiltZ.position w.squash.position
      anchorY sinv) = origs := by
  constructor
  · simp [updateEmbeddedVertices, isWobbling, hx, hz, hs]
  · have hid : cpuVertexDeform 0 0 0 anchorY sinv = id := by
      funext v
      simp [cpuVertexDeform]
    rw [hx, hz, hs, hid, List.map_id]

/-- Witness for amended claim C2 at the initial wobble state with a
concrete stale buffer. -/
theorem rest_idempotence_amended_witness :
    initialWobble.tiltX.position = 0 ∧ initialWobble.tiltZ.position = 0 ∧
    initialWobble.squash.position = 0 ∧ initialWobble.twist.position = 0 ∧
    (updateEmbeddedVertices initialWobble (1 / 2) 0 [{ x := 0, y := 1 / 2, z := 0 }]
        [{ x := 3 / 10, y := 1 / 2, z := 0 }]
      = [{ x := 3 / 10, y := 1 / 2, z := 0 }] ∧
     List.map (cpuVertexDeform initialWobble.tiltX.position
         initialWobble.tiltZ.position initialWobble.squash.position (1 / 2) 0)
         [{ x := 0, y := 1 / 2, z := 0 }]
       = [{ x := 0, y := 1 / 2, z := 0 }]) :=
  ⟨rfl, rfl, rfl, rfl,
    rest_idempotence_amended initialWobble rfl rfl rfl rfl (1 / 2) 0
      [{ x := 0, y := 1 / 2, z := 0 }] [{ x := 3 / 10, y := 1 / 2, z := 0 }]⟩

/-- Claim C9 is false as stated: with a live buffer of 1 vertex and a
cache of 2 entries (a length mismatch), the vertex write loop completes
silently instead of failing fast. -/
theorem cache_mismatch_counterexample :
    (1 : ℕ) ≠ ([{ x := 0, y := 1 / 2, z := 0 }, { x := 1, y := 1 / 2, z := 0 }] :
        List V3).length ∧
    (writeLoop (cpuVertexDeform 1 0 0 (1 / 2) 0)
        [{ x := 0, y := 1 / 2, z := 0 }, { x := 1, y := 1 / 2, z := 0 }] 1).isSome
      = true := by
  constructor
  · decide
  · rfl

/-- Claim C9 amended: the vertex loop has no explicit length check; it
throws (on the undefined cache entry) exactly when the live buffer is
longer than the cache, and silently deforms the first `count` cached
vertices when the cache is at least as long — so a mismatch with a longer
cache is not detected at all. -/
theorem cache_mismatch_amended (f : V3 → V3) (origs : List V3) (count : ℕ) :
    (writeLoop f origs count).isSome = true ↔ count ≤ origs.length := by
  induction count with
  | zero => simp [writeLoop]
  | succ n ih =>
      rw [writeLoop]
      cases h1 : writeLoop f origs n with
      | none =>
          have hn : ¬ n ≤ origs.length := by
            rw [← ih, h1]
            simp
          cases h2 : origs.get? n with
          | none =>
              simp
              omega
          | some o =>
              simp
              omega
      | some acc =>
          have hn : n ≤ origs.length := by
            rw [← ih, h1]
            rfl
          cases h2 : origs.get? n with
          | none =>
              have hlen : origs.length ≤ n := List.get?_eq_none.mp h2
              simp
              omega
          | some o =>
              have hlen : n < origs.length := (List.get?_eq_some.mp h2).1
              simp
              omega

/-- Iterating the integration step never changes the stiffness constant. -/
theorem iterate_stepSpring_stiffness (s : Spring) (n : ℕ) :
    (stepSpring^[n] s).stiffness = s.stiffness := by
  induction n with
  | zero => rfl
  | succ n ih => rw [Function.iterate_succ_apply']; exact ih

/-- If the energy form scales by 97/100 on one step (for springs of
stiffness `k`), it scales by `(97/100)^n` over `n` steps. -/
theorem Eform_iterate (k a b c : ℚ)
    (hE : ∀ s : Spring, s.stiffness = k →
      Eform a b c (stepSpring s) = 97 / 100 * Eform a b c s)
    (s : Spring) (hk : s.stiffness = k) (n : ℕ) :
    Eform a b c (stepSpring^[n] s) = (97 / 100) ^ n * Eform a b c s := by
  induction n with
  | zero => simp
  | succ n ih =>
      rw [Function.iterate_succ_apply',
        hE _ (by rw [iterate_stepSpring_stiffness, hk]), ih, pow_succ]
      ring

/-- Geometric decay of the damping factor: `(97/100)^n ≤ 97/(97 + 3n)`. -/
theorem damping_pow_bound (n : ℕ) : ((97 : ℚ) / 100) ^ n ≤ 97 / (97 + 3 * n) := by
  have hd : (0 : ℚ) < 97 + 3 * n := by positivity
  have hp : (0 : ℚ) < ((97 : ℚ) / 100) ^ n := by positivity
  have hpow : ((100 : ℚ) / 97) ^ n * ((97 : ℚ) / 100) ^ n = 1 := by
    rw [← mul_pow]
    norm_num
  have h1 : (97 + 3 * (n : ℚ)) / 97 ≤ ((100 : ℚ) / 97) ^ n := by
    have hber := one_add_mul_le_pow (a := (3 : ℚ) / 97) (by norm_num) n
    calc (97 + 3 * (n : ℚ)) / 97 = 1 + n * (3 / 97) := by ring
      _ ≤ (1 + 3 / 97) ^ n := hber
      _ = ((100 : ℚ) / 97) ^ n := by norm_num
  rw [le_div_iff₀ hd]
  nlinarith [mul_le_mul_of_nonneg_right h1 hp.le, hpow]

/-- A positive-definite quadratic form dominates a multiple of the
squared position. -/
theorem Eform_coercive (a b c : ℚ) (s : Spring) :
    (4 * a * c - b ^ 2) * s.position ^ 2 ≤ 4 * c * Eform a b c s := by
  have h := sq_nonneg (2 * c * s.velocity + b * s.position)
  simp only [Eform]
  nlinarith [h]

/-- A positive-definite quadratic form is nonnegative. -/
theorem Eform_nonneg (a b c : ℚ) (hc : 0 < c) (hdisc : b ^ 2 < 4 * a * c)
    (s : Spring) : 0 ≤ Eform a b c s := by
  have h1 := sq_nonneg (2 * c * s.velocity + b * s.position)
  have h2 := sq_nonneg s.position
  simp only [Eform]
  nlinarith [h1, h2]

/-- Core decay argument: any quadratic Lyapunov form that contracts by
exactly the damping factor on each step forces the iterated position to
converge to 0. -/
theorem spring_decay_of_form (k a b c : ℚ) (hc : 0 < c)
    (hdisc : b ^ 2 < 4 * a * c)
    (hE : ∀ s : Spring, s.stiffness = k →
      Eform a b c (stepSpring s) = 97 / 100 * Eform a b c s)
    (s0 : Spring) (hk : s0.stiffness = k) (ε : ℚ) (hε : 0 < ε) :
    ∃ N : ℕ, ∀ n : ℕ, N ≤ n → |(stepSpring^[n] s0).position| < ε := by
  have hE0nn : 0 ≤ Eform a b c s0 := Eform_nonneg a b c hc hdisc s0
  have hDpos : (0 : ℚ) < 4 * a * c - b ^ 2 := by nlinarith
  have hden : (0 : ℚ) < 3 * (4 * a * c - b ^ 2) * ε ^ 2 := by positivity
  obtain ⟨N, hN⟩ :=
    exists_nat_gt (97 * (4 * c * Eform a b c s0) / (3 * (4 * a * c - b ^ 2) * ε ^ 2))
  refine ⟨N, fun n hn => ?_⟩
  have hnQ : 97 * (4 * c * Eform a b c s0) / (3 * (4 * a * c - b ^ 2) * ε ^ 2)
      < (n : ℚ) := lt_of_lt_of_le hN (by exact_mod_cast hn)
  have hq : 97 * (4 * c * Eform a b c s0)
      < (n : ℚ) * (3 * (4 * a * c - b ^ 2) * ε ^ 2) := (div_lt_iff₀ hden).mp hnQ
  have h97 : (0 : ℚ) < 97 + 3 * n := by positivity
  have hb : ((97 : ℚ) / 100) ^ n * (97 + 3 * (n : ℚ)) ≤ 97 :=
    (le_div_iff₀ h97).mp (damping_pow_bound n)
  have hCnn : (0 : ℚ) ≤ 4 * c * Eform a b c s0 := by positivity
  have hc1 : ((97 : ℚ) / 100) ^ n * (97 + 3 * (n : ℚ)) * (4 * c * Eform a b c s0)
      ≤ 97 * (4 * c * Eform a b c s0) := mul_le_mul_of_nonneg_right hb hCnn
  have hc3 : (97 + 3 * (n : ℚ)) * (((97 : ℚ) / 100) ^ n * (4 * c * Eform a b c s0))
      < (97 + 3 * (n : ℚ)) * ((4 * a * c - b ^ 2) * ε ^ 2) := by
    nlinarith [hc1, hq, mul_nonneg (mul_nonneg hDpos.le (sq_nonneg ε)) (by norm_num : (0:ℚ) ≤ 97)]
  have hkey : ((97 : ℚ) / 100) ^ n * (4 * c * Eform a b c s0)
      < (4 * a * c - b ^ 2) * ε ^ 2 := lt_of_mul_lt_mul_left hc3 h97.le
  have hcoer := Eform_coercive a b c (stepSpring^[n] s0)
  rw [Eform_iterate k a b c hE s0 hk n] at hcoer
  have hp2 : (stepSpring^[n] s0).position ^ 2 < ε ^ 2 := by
    have hchain : (4 * a * c - b ^ 2) * (stepSpring^[n] s0).position ^ 2
        < (4 * a * c - b ^ 2) * ε ^ 2 := by nlinarith [hcoer, hkey]
    exact lt_of_mul_lt_mul_left hchain hDpos.le
  nlinarith [sq_abs ((stepSpring^[n] s0).position),
    abs_nonneg ((stepSpring^[n] s0).position), hp2, hε]

/-- Claim C4: for each of the stiffness constants used by the four
oscillators (25, 45, 15), starting from rest and applying any impulse `I`,
iterating the integration step at the fixed small time step 1/60 s drives
the position to 0: for every positive `ε` there is a step count after
which the absolute position stays below `ε` (damping 0.97 < 1 together
with positive stiffness gives stability, no sustained or growing
oscillation). -/
theorem spring_decay (k : ℚ) (hk : k = 25 ∨ k = 45 ∨ k = 15) (I ε : ℚ)
    (hε : 0 < ε) :
    ∃ N : ℕ, ∀ n : ℕ, N ≤ n →
      |(stepSpring^[n]
          (applyImpulse { position := 0, velocity := 0, stiffness := k } I)).position|
        < ε := by
  have hs : (applyImpulse { position := 0, velocity := 0, stiffness := k } I).stiffness
      = k := rfl
  rcases hk with h | h | h <;> subst h
  · exact spring_decay_of_form 25 1 (67 / 1164) (1 / 25) (by norm_num) (by norm_num)
      (fun s hsk => by
        obtain ⟨p, v, st⟩ := s
        simp only [Spring.mk.injEq] at hsk
        simp only [Eform, stepSpring, updateSpring, dampingFactor, hsk]
        ring) _ hs ε hε
  · exact spring_decay_of_form 45 1 (143 / 5820) (1 / 45) (by norm_num) (by norm_num)
      (fun s hsk => by
        obtain ⟨p, v, st⟩ := s
        simp only [Spring.mk.injEq] at hsk
        simp only [Eform, stepSpring, updateSpring, dampingFactor, hsk]
        ring) _ hs ε hε
  · exact spring_decay_of_form 15 1 (623 / 5820) (1 / 15) (by norm_num) (by norm_num)
      (fun s hsk => by
        obtain ⟨p, v, st⟩ := s
        simp only [Spring.mk.injEq] at hsk
        simp only [Eform, stepSpring, updateSpring, dampingFactor, hsk]
        ring) _ hs ε hε

/-- Witness for claim C4 at stiffness 25, impulse 1 and tolerance 1. -/
theorem spring_decay_witness :
    ((25 : ℚ) = 25 ∨ (25 : ℚ) = 45 ∨ (25 : ℚ) = 15) ∧ (0 : ℚ) < 1 ∧
    ∃ N : ℕ, ∀ n : ℕ, N ≤ n →
      |(stepSpring^[n]
          (applyImpulse { position := 0, velocity := 0, stiffness := 25 } 1)).position|
        < 1 :=
  ⟨Or.inl rfl, by norm_num, spring_decay 25 (Or.inl rfl) 1 1 (by norm_num)⟩

/-- Claim C10: two frames whose incoming wobble states agree on the
tiltX, tiltZ and squash oscillators (differing arbitrarily in twist)
produce identical rendered outputs — uniforms, bubble matrices, embedded
object position/rotation/vertices and the quiescence flag — even though
the twist oscillator is integrated every frame. -/
theorem twist_noninterference (w1 w2 : WobbleState) (dt : ℚ)
    (bubbles : List Bubble) (sinv : ℚ) (origs current : List V3)
    (hx : w1.tiltX = w2.tiltX) (hz : w1.tiltZ = w2.tiltZ)
    (hs : w1.squash = w2.squash) :
    (frameStep w1 dt bubbles sinv origs current).2
      = (frameStep w2 dt bubbles sinv origs current).2 ∧
    (frameStep w1 dt bubbles sinv origs current).1.twist
      = updateSpring w1.twist dt := by
  have hadv : ∀ w : WobbleState, advanceWobble w dt =
      { tiltX := updateSpring w.tiltX dt, tiltZ := updateSpring w.tiltZ dt
        squash := updateSpring w.squash dt, twist := updateSpring w.twist dt } := by
    intro w
    rfl
  have houts : ∀ a b c t1 t2 : Spring,
      frameOutputs { tiltX := a, tiltZ := b, squash := c, twist := t1 }
          bubbles sinv origs current
        = frameOutputs { tiltX := a, tiltZ := b, squash := c, twist := t2 }
            bubbles sinv origs current := fun _ _ _ _ _ => rfl
  constructor
  · show frameOutputs (advanceWobble w1 dt) bubbles sinv origs current
        = frameOutputs (advanceWobble w2 dt) bubbles sinv origs current
    rw [hadv w1, hadv w2, hx, hz, hs]
    exact houts _ _ _ _ _
  · show (advanceWobble w1 dt).twist = updateSpring w1.twist dt
    rw [hadv w1]

/-- Witness for claim C10 at two concrete states differing only in the
twist oscillator. -/
theorem twist_noninterference_witness :
    initialWobble.tiltX = wobbleTwisted.tiltX ∧
    initialWobble.tiltZ = wobbleTwisted.tiltZ ∧
    initialWobble.squash = wobbleTwisted.squash ∧
    ((frameStep initialWobble (1 / 60) [] 0 [] []).2
        = (frameStep wobbleTwisted (1 / 60) [] 0 [] []).2 ∧
     (frameStep initialWobble (1 / 60) [] 0 [] []).1.twist
        = updateSpring initialWobble.twist (1 / 60)) :=
  ⟨rfl, rfl, rfl,
    twist_noninterference initialWobble wobbleTwisted (1 / 60) [] 0 [] []
      rfl rfl rfl⟩

end WillItJello
